import Mathlib

/- Verification development for the beehive-monitor telemetry backend.

   Shallow embedding conventions:
   - Voltages, temperatures and timestamps are rationals; the JavaScript
     code compares IEEE doubles obtained from decimal literals, and every
     comparison the claims depend on is between such decimal values, so
     exact rational arithmetic is a faithful model.
   - A database table is a Lean list; the singleton lvd_settings row is an
     Option value (none means the table is empty).
   - An HTTP handler is a pure function from request fields and store state
     to the new state and a response; absent request fields are none.
   - JSON response bodies are projected onto the fields the claims are
     about; a key missing from the response object is modelled as none. -/

namespace BeehiveMonitor

/-- Threshold policy row of the lvd_settings table in the full backend
(src/backend/routes/lvd.js and src/backend/db/schema.sql). -/
structure LvdSettings where
  disconnect_volt : ℚ
  reconnect_volt : ℚ
  lvd_enabled : Bool
  deriving DecidableEq, Repr

/-- Default settings object used by the lvd.js routes whenever the
lvd_settings table has no row: disconnect 3.30, reconnect 3.60, enabled. -/
def defaultSettings : LvdSettings :=
  { disconnect_volt := 33/10, reconnect_volt := 18/5, lvd_enabled := true }

/-- Range test performed by the PUT /api/lvd/settings handler on each
voltage field that is present in the request body: the field is invalid
when it is below 2.5 or above 4.2. -/
def vOutOfRange : Option ℚ → Bool
  | none => false
  | some v => decide (v < 5/2) || decide (v > 21/5)

/-- PUT /api/lvd/settings handler of src/backend/routes/lvd.js (lines
94-177). Validates each supplied voltage field against [2.5, 4.2],
rejects an empty update, inserts the default row first when the table is
empty, then commits the merge of the supplied fields onto the current
row. Returns the new store state and whether the update was committed.
The handler never compares disconnect_volt with reconnect_volt. -/
def lvdPutSettings (dv rv : Option ℚ) (en : Option Bool) (s : Option LvdSettings) :
    Option LvdSettings × Bool :=
  if vOutOfRange dv then (s, false)
  else if vOutOfRange rv then (s, false)
  else if dv.isNone && rv.isNone && en.isNone then (s, false)
  else
    let cur := s.getD defaultSettings
    (some { disconnect_volt := dv.getD cur.disconnect_volt,
            reconnect_volt := rv.getD cur.reconnect_volt,
            lvd_enabled := en.getD cur.lvd_enabled }, true)

/-- Sequential application of PUT /api/lvd/settings calls to the
singleton settings row. -/
def applySettings (us : List (Option ℚ × Option ℚ × Option Bool))
    (s : Option LvdSettings) : Option LvdSettings :=
  us.foldl (fun st u => (lvdPutSettings u.1 u.2.1 u.2.2 st).1) s

/-- Both stored voltages lie in the plausible single-cell lithium range. -/
def rangeOk (p : LvdSettings) : Prop :=
  5/2 ≤ p.disconnect_volt ∧ p.disconnect_volt ≤ 21/5 ∧
  5/2 ≤ p.reconnect_volt ∧ p.reconnect_volt ≤ 21/5

/-- Range invariant lifted to the possibly missing settings row. -/
def rangeOkOpt : Option LvdSettings → Prop
  | none => True
  | some p => rangeOk p

lemma rangeOk_default : rangeOk defaultSettings := by
  refine ⟨?_, ?_, ?_, ?_⟩ <;> norm_num [defaultSettings]

lemma rangeOkOpt_step (dv rv : Option ℚ) (en : Option Bool) (s : Option LvdSettings)
    (h : rangeOkOpt s) : rangeOkOpt (lvdPutSettings dv rv en s).1 := by
  have hcur : rangeOk (s.getD defaultSettings) := by
    cases s with
    | none => exact rangeOk_default
    | some p => exact h
  by_cases h1 : vOutOfRange dv
  · simpa [lvdPutSettings, h1] using h
  by_cases h2 : vOutOfRange rv
  · simpa [lvdPutSettings, h1, h2] using h
  by_cases h3 : (dv.isNone && rv.isNone && en.isNone) = true
  · simpa [lvdPutSettings, h1, h2, h3] using h
  have hdv : 5/2 ≤ dv.getD (s.getD defaultSettings).disconnect_volt ∧
      dv.getD (s.getD defaultSettings).disconnect_volt ≤ 21/5 := by
    cases dv with
    | none => exact ⟨hcur.1, hcur.2.1⟩
    | some v =>
      simp only [vOutOfRange, Bool.or_eq_true, decide_eq_true_eq, not_or, not_lt] at h1
      exact ⟨h1.1, h1.2⟩
  have hrv : 5/2 ≤ rv.getD (s.getD defaultSettings).reconnect_volt ∧
      rv.getD (s.getD defaultSettings).reconnect_volt ≤ 21/5 := by
    cases rv with
    | none => exact ⟨hcur.2.2.1, hcur.2.2.2⟩
    | some v =>
      simp only [vOutOfRange, Bool.or_eq_true, decide_eq_true_eq, not_or, not_lt] at h2
      exact ⟨h2.1, h2.2⟩
  have : (lvdPutSettings dv rv en s).1 =
      some { disconnect_volt := dv.getD (s.getD defaultSettings).disconnect_volt,
             reconnect_volt := rv.getD (s.getD defaultSettings).reconnect_volt,
             lvd_enabled := en.getD (s.getD defaultSettings).lvd_enabled } := by
    simp [lvdPutSettings, h1, h2, h3]
  rw [this]
  exact ⟨hdv.1, hdv.2, hrv.1, hrv.2⟩

lemma rangeOkOpt_applySettings (us : List (Option ℚ × Option ℚ × Option Bool)) :
    ∀ s : Option LvdSettings, rangeOkOpt s → rangeOkOpt (applySettings us s) := by
  induction us with
  | nil => intro s h; exact h
  | cons u us ih =>
    intro s h
    exact ih _ (rangeOkOpt_step u.1 u.2.1 u.2.2 s h)

/-- C1 counterexample: starting from the default policy, the update that
sets only the disconnect voltage to 3.8 is accepted, and the committed
merged policy has disconnect 3.8 and reconnect 3.6, which violates the
disconnect less than reconnect invariant the claim says is enforced. -/
theorem lvdPutSettings_accepts_inverted_band :
    (lvdPutSettings (some (19/5)) none none (some defaultSettings)).2 = true ∧
    (lvdPutSettings (some (19/5)) none none (some defaultSettings)).1 =
      some { disconnect_volt := 19/5, reconnect_volt := 18/5, lvd_enabled := true } ∧
    ¬ ((19 : ℚ)/5 < 18/5) := by
  have hdv : vOutOfRange (some ((19 : ℚ)/5)) = false := by
    simp only [vOutOfRange, Bool.or_eq_false_iff, decide_eq_false_iff_not, not_lt]
    constructor <;> norm_num
  refine ⟨?_, ?_, by norm_num⟩ <;>
    norm_num [lvdPutSettings, hdv, vOutOfRange, defaultSettings]

/-- C1 (amended): after every sequence of update calls starting from the
default policy, both stored voltages remain within [2.5, 4.2], and a
rejected update leaves the stored row unchanged (no partial write); the
handler does not validate disconnect less than reconnect. -/
theorem lvdPutSettings_range_invariant :
    (∀ (us : List (Option ℚ × Option ℚ × Option Bool)) (p : LvdSettings),
        applySettings us (some defaultSettings) = some p → rangeOk p) ∧
    (∀ (dv rv : Option ℚ) (en : Option Bool) (s : Option LvdSettings),
        (lvdPutSettings dv rv en s).2 = false → (lvdPutSettings dv rv en s).1 = s) := by
  constructor
  · intro us p hp
    have h := rangeOkOpt_applySettings us (some defaultSettings) rangeOk_default
    rw [hp] at h
    exact h
  · intro dv rv en s hrej
    unfold lvdPutSettings at *
    by_cases h1 : vOutOfRange dv
    · simp [h1]
    by_cases h2 : vOutOfRange rv
    · simp [h1, h2]
    by_cases h3 : dv.isNone && rv.isNone && en.isNone
    · simp [h1, h2, h3]
    · simp [h1, h2, h3] at hrej

/-- Witness for the C1 amended theorem at concrete inputs: one accepted
update keeps the range invariant, and one rejected update (disconnect 1 V
is below 2.5) leaves the default row unchanged. -/
theorem lvdPutSettings_range_invariant_witness :
    rangeOk { disconnect_volt := 4, reconnect_volt := 18/5, lvd_enabled := true } ∧
    (lvdPutSettings (some 1) none none (some defaultSettings)).1 = some defaultSettings :=
  ⟨lvdPutSettings_range_invariant.1 [(some 4, none, none)]
      { disconnect_volt := 4, reconnect_volt := 18/5, lvd_enabled := true }
      (by
        have h4 : vOutOfRange (some (4 : ℚ)) = false := by
          simp only [vOutOfRange, Bool.or_eq_false_iff, decide_eq_false_iff_not, not_lt]
          constructor <;> norm_num
        norm_num [applySettings, lvdPutSettings, h4, vOutOfRange, defaultSettings,
          Option.some_ne_none]),
   lvdPutSettings_range_invariant.2 (some 1) none none (some defaultSettings)
      (by
        have h1 : vOutOfRange (some (1 : ℚ)) = true := by
          simp only [vOutOfRange, Bool.or_eq_true, decide_eq_true_eq]
          left
          norm_num
        simp [lvdPutSettings, h1])⟩

/-- Relay control step of controlRelay in
src/arduino/lvd_controller/lvd_controller.ino (lines 220-250). The state
true is relay ON, that is CONNECTED; false is DISCONNECTED. When the LVD
is disabled the relay is forced ON; otherwise a CONNECTED relay turns off
when the sample voltage is below the disconnect threshold, and a
DISCONNECTED relay turns on when the sample voltage is above the
reconnect threshold. -/
def controlRelay (lvdEnabled : Bool) (disconnectVoltage reconnectVoltage : ℚ)
    (relayState : Bool) (voltage : ℚ) : Bool :=
  if !lvdEnabled then true
  else if relayState then
    if voltage < disconnectVoltage then false else true
  else
    if reconnectVoltage < voltage then true else false

/-- Repeated evaluation of the relay control step over a sequence of
voltage samples, as done once per reading in the controller main loop. -/
def runRelay (lvdEnabled : Bool) (disconnectVoltage reconnectVoltage : ℚ)
    (relayState : Bool) (samples : List ℚ) : Bool :=
  samples.foldl (controlRelay lvdEnabled disconnectVoltage reconnectVoltage) relayState

/-- C5: the relay step leaves CONNECTED exactly when the LVD is enabled
and the sample voltage is below the disconnect threshold, and leaves
DISCONNECTED exactly when the sample voltage is above the reconnect
threshold or the LVD is disabled; in all other cases the state is
unchanged (the two states are the whole state space, so each iff also
fixes the no-transition cases). -/
theorem controlRelay_transitions :
    ∀ (en : Bool) (dV rV v : ℚ),
      (controlRelay en dV rV true v = false ↔ (en = true ∧ v < dV)) ∧
      (controlRelay en dV rV false v = true ↔ (rV < v ∨ en = false)) := by
  intro en dV rV v
  cases en with
  | false => simp [controlRelay]
  | true =>
    constructor
    · by_cases hv : v < dV <;> simp [controlRelay, hv]
    · by_cases hv : rV < v <;> simp [controlRelay, hv]

/-- Witness for C5 at concrete inputs: an enabled relay at 3.0 V, below
the 3.3 V disconnect threshold, disconnects; a disconnected relay at
3.7 V, above the 3.6 V reconnect threshold, reconnects. -/
theorem controlRelay_transitions_witness :
    controlRelay true (33/10) (18/5) true 3 = false ∧
    controlRelay true (33/10) (18/5) false (37/10) = true :=
  ⟨(controlRelay_transitions true (33/10) (18/5) 3).1.mpr ⟨rfl, by norm_num⟩,
   (controlRelay_transitions true (33/10) (18/5) (37/10)).2.mpr (Or.inl (by norm_num))⟩

/-- C6: with the enabled policy disconnect 3.30 and reconnect 3.60, a
sample sequence lying strictly inside the dead band never changes the
relay state, from either starting state. -/
theorem runRelay_deadband_stable :
    ∀ (samples : List ℚ) (s : Bool),
      (∀ v ∈ samples, 33/10 < v ∧ v < 18/5) →
      runRelay true (33/10) (18/5) s samples = s := by
  intro samples
  induction samples with
  | nil => intro s _; rfl
  | cons v vs ih =>
    intro s h
    have hv := h v (List.mem_cons_self v vs)
    have hstep : controlRelay true (33/10) (18/5) s v = s := by
      cases s with
      | true => simp [controlRelay, not_lt.mpr (le_of_lt hv.1)]
      | false => simp [controlRelay, not_lt.mpr (le_of_lt hv.2)]
    show List.foldl (controlRelay true (33/10) (18/5)) s (v :: vs) = s
    rw [List.foldl_cons, hstep]
    exact ih s (fun u hu => h u (List.mem_cons_of_mem v hu))

/-- Witness for C6: oscillating between 3.40 and 3.50 inside the dead
band leaves a connected relay connected. -/
theorem runRelay_deadband_stable_witness :
    runRelay true (33/10) (18/5) true [17/5, 7/2, 17/5, 7/2] = true :=
  runRelay_deadband_stable [17/5, 7/2, 17/5, 7/2] true
    (by
      intro v hv
      simp only [List.mem_cons, List.not_mem_nil, or_false] at hv
      rcases hv with h | h | h | h <;> rw [h] <;> constructor <;> norm_num)

/-- Row of the hives table (src/backend/db/schema.sql): a device identity
with its opaque api_key credential and soft-delete flag. -/
structure Hive where
  id : Nat
  name : String
  api_key : String
  is_active : Bool
  deriving DecidableEq, Repr

/-- Row of the readings table written by the receive endpoint of
src/unnamed/part_002: one observation with its server-assigned
recorded_at timestamp in milliseconds. -/
structure Reading where
  hive_id : Nat
  mcp_temp : ℚ
  hdc_temp : Option ℚ
  hdc_humidity : Option ℚ
  weight_kg : Option ℚ
  recorded_at : ℚ
  deriving DecidableEq, Repr

/-- Timestamp of the latest reading of one hive: the row produced by
ORDER BY recorded_at DESC LIMIT 1, that is the maximal recorded_at among
the readings of that hive, or none when the hive has no readings. -/
def latestFor (hid : Nat) (rs : List Reading) : Option ℚ :=
  (rs.filter (fun r => r.hive_id == hid)).foldl
    (fun acc r =>
      match acc with
      | none => some r.recorded_at
      | some m => some (max m r.recorded_at)) none

/-- Online inference used by GET /api/hives in src/backend/routes/hives.js
(lines 33-43) and GET /api/readings/latest in src/unnamed/part_002: a
device is online when the seconds elapsed since its latest reading are
fewer than 600, and a device with no reading is offline. -/
def hiveOnline (nowMs : ℚ) (latest : Option ℚ) : Bool :=
  match latest with
  | none => false
  | some t => decide ((nowMs - t) / 1000 < 600)

/-- Device object returned by the dashboard list and detail queries: the
api_key field is deleted from the response unless the request carries a
valid operator token. -/
structure HiveView where
  id : Nat
  name : String
  api_key : Option String
  is_online : Bool
  latest : Option ℚ
  deriving DecidableEq, Repr

/-- Projection of one hive row to its response object, as built by
GET /api/hives and GET /api/hives/:id of src/backend/routes/hives.js:
latest reading, online flag, and the api_key kept only when the request
is authenticated. -/
def viewHive (authed : Bool) (nowMs : ℚ) (rs : List Reading) (h : Hive) : HiveView :=
  let latest := latestFor h.id rs
  { id := h.id, name := h.name,
    api_key := if authed then some h.api_key else none,
    is_online := hiveOnline nowMs latest,
    latest := latest }

/-- GET /api/hives of src/backend/routes/hives.js (lines 12-63): all
active hives, each with latest reading, online flag, and conditionally
the credential. -/
def listHives (authed : Bool) (nowMs : ℚ) (hives : List Hive) (rs : List Reading) :
    List HiveView :=
  (hives.filter (fun h => h.is_active)).map (viewHive authed nowMs rs)

/-- GET /api/hives/:id of src/backend/routes/hives.js (lines 65-169): the
requested hive looked up by id, or none for a 404. -/
def getHive (authed : Bool) (nowMs : ℚ) (hives : List Hive) (rs : List Reading)
    (hid : Nat) : Option HiveView :=
  (hives.find? (fun h => h.id == hid)).map (viewHive authed nowMs rs)

/-- C7: the list query reports a device online exactly when the time
elapsed since its latest reading is under the 600 second threshold: with
the latest reading at time t it is online when queried epsilon before
t plus 600 s and offline when queried epsilon after, a device with no
readings is always offline, and the per-device online flag of the list
response is exactly this recency test. -/
theorem hiveOnline_threshold :
    ∀ (t ε : ℚ), 0 < ε →
      hiveOnline (t + (600 - ε) * 1000) (some t) = true ∧
      hiveOnline (t + (600 + ε) * 1000) (some t) = false ∧
      (∀ q, hiveOnline q none = false) ∧
      (∀ q u, hiveOnline q (some u) = true ↔ (q - u) / 1000 < 600) ∧
      (∀ hid, latestFor hid [] = none) ∧
      (∀ (authed : Bool) (q : ℚ) (rs : List Reading) (h : Hive),
        (viewHive authed q rs h).is_online = hiveOnline q (latestFor h.id rs)) := by
  intro t ε hε
  have hiff : ∀ q u : ℚ, hiveOnline q (some u) = true ↔ (q - u) / 1000 < 600 := by
    intro q u
    simp [hiveOnline]
  refine ⟨?_, ?_, fun q => rfl, hiff, fun hid => rfl, fun authed q rs h => rfl⟩
  · rw [hiff]
    have : t + (600 - ε) * 1000 - t = (600 - ε) * 1000 := by ring
    rw [this]
    rw [div_lt_iff₀ (by norm_num : (0:ℚ) < 1000)]
    nlinarith
  · rw [Bool.eq_false_iff]
    intro hcontra
    rw [hiff] at hcontra
    have : t + (600 + ε) * 1000 - t = (600 + ε) * 1000 := by ring
    rw [this] at hcontra
    rw [div_lt_iff₀ (by norm_num : (0:ℚ) < 1000)] at hcontra
    nlinarith

/-- Witness for C7 at t equal 0 and epsilon equal 1: online 599 s after
the reading, offline 601 s after. -/
theorem hiveOnline_threshold_witness :
    hiveOnline (0 + (600 - 1) * 1000) (some 0) = true ∧
    hiveOnline (0 + (600 + 1) * 1000) (some 0) = false :=
  ⟨(hiveOnline_threshold 0 1 one_pos).1, (hiveOnline_threshold 0 1 one_pos).2.1⟩

/-- C10: the device list and device detail queries never expose the
api_key credential on an unauthenticated request, and expose it exactly
when the request is authenticated. -/
theorem api_key_hidden_unless_authed :
    ∀ (nowMs : ℚ) (hives : List Hive) (rs : List Reading),
      (∀ v ∈ listHives false nowMs hives rs, v.api_key = none) ∧
      (∀ v ∈ listHives true nowMs hives rs, v.api_key.isSome = true) ∧
      (∀ hid v, getHive false nowMs hives rs hid = some v → v.api_key = none) ∧
      (∀ hid v, getHive true nowMs hives rs hid = some v → v.api_key.isSome = true) := by
  intro nowMs hives rs
  refine ⟨?_, ?_, ?_, ?_⟩
  · intro v hv
    simp only [listHives, List.mem_map] at hv
    obtain ⟨h, _, rfl⟩ := hv
    rfl
  · intro v hv
    simp only [listHives, List.mem_map] at hv
    obtain ⟨h, _, rfl⟩ := hv
    rfl
  · intro hid v hv
    simp only [getHive, Option.map_eq_some'] at hv
    obtain ⟨h, _, rfl⟩ := hv
    rfl
  · intro hid v hv
    simp only [getHive, Option.map_eq_some'] at hv
    obtain ⟨h, _, rfl⟩ := hv
    rfl

/-- Witness for C10 on a concrete one-device registry: the unauthenticated
list hides the key, the authenticated detail keeps it. -/
theorem api_key_hidden_unless_authed_witness :
    (viewHive false 0 [] { id := 1, name := "Alpha", api_key := "alpha_k", is_active := true }).api_key
      = none ∧
    (viewHive true 0 [] { id := 1, name := "Alpha", api_key := "alpha_k", is_active := true }).api_key.isSome
      = true :=
  ⟨(api_key_hidden_unless_authed 0
        [{ id := 1, name := "Alpha", api_key := "alpha_k", is_active := true }] []).1
      _ (by simp [listHives]),
   (api_key_hidden_unless_authed 0
        [{ id := 1, name := "Alpha", api_key := "alpha_k", is_active := true }] []).2.2.2
      1 _ (by simp [getHive])⟩

/-- Response of an ingestion endpoint, projected onto the status code and
the threshold policy keys the claims are about; a policy key absent from
the JSON body is none. -/
structure IngestResp where
  status : Nat
  disconnect_volt : Option ℚ
  reconnect_volt : Option ℚ
  lvd_enabled : Option Bool
  deriving DecidableEq, Repr

/-- Response with status 400 and no policy keys. -/
def err400 : IngestResp := ⟨400, none, none, none⟩

/-- Response with status 401 and no policy keys. -/
def resp401 : IngestResp := ⟨401, none, none, none⟩

/-- Success response of the readings receive endpoint: status 200 with
only status, message and id keys, so none of the policy keys. -/
def savedResp : IngestResp := ⟨200, none, none, none⟩

/-- Store state of the full backend: hives table and readings table. -/
structure HiveDb where
  hives : List Hive
  readings : List Reading
  deriving DecidableEq, Repr

/-- Credential lookup of the receive endpoint: the hive whose api_key
matches and which is active. -/
def findActiveHive (k : String) (hs : List Hive) : Option Hive :=
  hs.find? (fun h => h.api_key == k && h.is_active)

/-- Receive endpoint of src/unnamed/part_002 (lines 424-497): rejects a
missing or empty api_key with 400, an unknown or inactive credential with
401, a missing temperature with 400, a temperature outside [-40, 85] with
400, and otherwise appends exactly one reading and answers 200 without
any policy keys in the body. -/
def receiveReading (apiKey : Option String) (temp hdcTemp humidity weight : Option ℚ)
    (nowMs : ℚ) (db : HiveDb) : HiveDb × IngestResp :=
  match apiKey with
  | none => (db, err400)
  | some k =>
    if k = "" then (db, err400)
    else
      match findActiveHive k db.hives with
      | none => (db, resp401)
      | some h =>
        match temp with
        | none => (db, err400)
        | some t =>
          if t < -40 ∨ t > 85 then (db, err400)
          else
            ({ db with
                readings := db.readings ++
                  [{ hive_id := h.id, mcp_temp := t, hdc_temp := hdcTemp,
                     hdc_humidity := humidity, weight_kg := weight,
                     recorded_at := nowMs }] },
             savedResp)

/-- C2 (amended): in the receive endpoint of src/unnamed/part_002, a
submission with a valid credential and a present temperature is rejected
with 400 and persists nothing when the temperature is outside [-40, 85],
and succeeds persisting exactly one reading when it is inside; the
minimal Express backend of src/backend/index.js performs no range check
(see the counterexample theorem). -/
theorem receiveReading_range_check :
    ∀ (k : String) (t : ℚ) (hdc hum wt : Option ℚ) (nowMs : ℚ) (db : HiveDb) (h : Hive),
      k ≠ "" → findActiveHive k db.hives = some h →
      ((t < -40 ∨ 85 < t) →
        receiveReading (some k) (some t) hdc hum wt nowMs db = (db, err400)) ∧
      (-40 ≤ t → t ≤ 85 →
        (receiveReading (some k) (some t) hdc hum wt nowMs db).2 = savedResp ∧
        (receiveReading (some k) (some t) hdc hum wt nowMs db).1.hives = db.hives ∧
        (receiveReading (some k) (some t) hdc hum wt nowMs db).1.readings =
          db.readings ++
            [{ hive_id := h.id, mcp_temp := t, hdc_temp := hdc,
               hdc_humidity := hum, weight_kg := wt, recorded_at := nowMs }]) := by
  intro k t hdc hum wt nowMs db h hk hfind
  constructor
  · intro hout
    simp [receiveReading, hk, hfind, hout]
  · intro hlo hhi
    have hin : ¬ (t < -40 ∨ t > 85) := by
      push_neg
      exact ⟨hlo, hhi⟩
    refine ⟨?_, ?_, ?_⟩ <;> simp [receiveReading, hk, hfind, hin]

/-- One-device store used by the concrete witnesses. -/
def db0c : HiveDb :=
  { hives := [{ id := 1, name := "Alpha", api_key := "alpha_k", is_active := true }],
    readings := [] }

lemma findActiveHive_db0c :
    findActiveHive "alpha_k" db0c.hives =
      some { id := 1, name := "Alpha", api_key := "alpha_k", is_active := true } := by
  simp [findActiveHive, db0c, List.find?]

/-- Witness for the C2 amended theorem: temperature 200 is rejected with
400 and nothing is stored, temperature 34.5 is accepted with 200. -/
theorem receiveReading_range_check_witness :
    receiveReading (some "alpha_k") (some 200) none none none 0 db0c = (db0c, err400) ∧
    (receiveReading (some "alpha_k") (some (69/2)) none none none 0 db0c).2 = savedResp :=
  ⟨(receiveReading_range_check "alpha_k" 200 none none none 0 db0c
      { id := 1, name := "Alpha", api_key := "alpha_k", is_active := true }
      (by simp) findActiveHive_db0c).1 (Or.inr (by norm_num)),
   ((receiveReading_range_check "alpha_k" (69/2) none none none 0 db0c
      { id := 1, name := "Alpha", api_key := "alpha_k", is_active := true }
      (by simp) findActiveHive_db0c).2 (by norm_num) (by norm_num)).1⟩

/-- C3: a submission carrying a credential that does not resolve to an
active device is answered with 401 and leaves the whole store unchanged. -/
theorem receiveReading_auth_gate :
    ∀ (k : String) (t hdc hum wt : Option ℚ) (nowMs : ℚ) (db : HiveDb),
      k ≠ "" → findActiveHive k db.hives = none →
      receiveReading (some k) t hdc hum wt nowMs db = (db, resp401) := by
  intro k t hdc hum wt nowMs db hk hfind
  simp [receiveReading, hk, hfind]

/-- Witness for C3: the credential not_a_real_key resolves to no device
and the submission is rejected with 401, store unchanged. -/
theorem receiveReading_auth_gate_witness :
    receiveReading (some "not_a_real_key") (some 20) none none none 0 db0c
      = (db0c, resp401) :=
  receiveReading_auth_gate "not_a_real_key" (some 20) none none none 0 db0c
    (by simp)
    (by simp [findActiveHive, db0c, List.find?])

/-- C4 counterexample: a successful reading submission through the receive
endpoint answers 200 with none of the threshold policy keys in the body,
so the device cannot refresh its hysteresis parameters from it. -/
theorem receiveReading_no_policy_echo :
    (receiveReading (some "alpha_k") (some (69/2)) none none none 0 db0c).2.status = 200 ∧
    (receiveReading (some "alpha_k") (some (69/2)) none none none 0 db0c).2.disconnect_volt = none ∧
    (receiveReading (some "alpha_k") (some (69/2)) none none none 0 db0c).2.reconnect_volt = none ∧
    (receiveReading (some "alpha_k") (some (69/2)) none none none 0 db0c).2.lvd_enabled = none := by
  have hin : ¬ ((69 : ℚ)/2 < -40 ∨ (69 : ℚ)/2 > 85) := by
    push_neg
    constructor <;> norm_num
  have h : (receiveReading (some "alpha_k") (some (69/2)) none none none 0 db0c).2
      = savedResp := by
    simp [receiveReading, findActiveHive_db0c, hin]
  rw [h]
  exact ⟨rfl, rfl, rfl, rfl⟩

/-- Reading row of the minimal Express backend (src/backend/index.js):
temperature, humidity and weight columns are all nullable. -/
structure ReadingPg where
  hive_id : Nat
  temperature : Option ℚ
  humidity : Option ℚ
  weight : Option ℚ
  deriving DecidableEq, Repr

/-- Store state of the minimal Express backend. -/
structure HiveDbPg where
  hives : List Hive
  readings : List ReadingPg
  deriving DecidableEq, Repr

/-- JavaScript truthiness of a nullable number: null and 0 are falsy. -/
def truthyQ : Option ℚ → Bool
  | none => false
  | some x => decide (x ≠ 0)

/-- JavaScript expression v OR null on a nullable number. -/
def jsOrNull (a : Option ℚ) : Option ℚ :=
  if truthyQ a then a else none

/-- JavaScript expression a OR b OR null on nullable numbers. -/
def jsOr (a b : Option ℚ) : Option ℚ :=
  if truthyQ a then a else jsOrNull b

/-- POST /api/readings of src/backend/index.js (lines 272-304): looks the
hive up by api_key with no is_active filter, and inserts whatever values
arrived, with no presence or range validation of the temperature. -/
def postReadingsPg (apiKey : Option String) (temp temperature humidity weight : Option ℚ)
    (db : HiveDbPg) : HiveDbPg × Nat :=
  match apiKey with
  | none => (db, 400)
  | some k =>
    if k = "" then (db, 400)
    else
      match db.hives.find? (fun h => h.api_key == k) with
      | none => (db, 401)
      | some h =>
        ({ db with
            readings := db.readings ++
              [{ hive_id := h.id, temperature := jsOr temp temperature,
                 humidity := jsOrNull humidity, weight := jsOrNull weight }] },
         200)

/-- One-device store of the minimal Express backend used by the C2
counterexample. -/
def dbPg0 : HiveDbPg :=
  { hives := [{ id := 1, name := "Alpha", api_key := "alpha_k", is_active := true }],
    readings := [] }

/-- C2 counterexample: the POST /api/readings handler of
src/backend/index.js, cited by the claim, accepts a submission with a
valid credential and temperature 200, answers 200 and persists the
out-of-range reading, while the claim requires a 400 rejection with
nothing persisted. -/
theorem postReadingsPg_accepts_out_of_range :
    (postReadingsPg (some "alpha_k") (some 200) none none none dbPg0).2 = 200 ∧
    (postReadingsPg (some "alpha_k") (some 200) none none none dbPg0).1.readings =
      [{ hive_id := 1, temperature := some 200, humidity := none, weight := none }] ∧
    ¬ ((200 : ℚ) ≤ 85) := by
  have htr : truthyQ (some (200 : ℚ)) = true := by
    simp [truthyQ]
  refine ⟨?_, ?_, by norm_num⟩ <;>
    simp [postReadingsPg, dbPg0, List.find?, jsOr, jsOrNull, truthyQ, htr]

/-- Percentage computed by batteryPercent in src/backend/routes/lvd.js
(lines 11-15): linear interpolation between 3.0 V and 4.2 V, rounded,
clamped to [0, 100]. -/
def batteryPercent (voltage : ℚ) : ℤ :=
  max 0 (min 100 (round ((voltage - 3) / (21/5 - 3) * 100)))

/-- Row of the lvd_readings table written by POST /api/lvd. -/
structure LvdReading where
  battery_voltage : ℚ
  battery_percent : ℤ
  lvd_status : Bool
  solar_voltage : Option ℚ
  deriving DecidableEq, Repr

/-- Store state touched by the LVD routes of src/backend/routes/lvd.js:
the singleton settings row and the lvd_readings table. -/
structure LvdDb where
  settings : Option LvdSettings
  lvd_readings : List LvdReading
  deriving DecidableEq, Repr

/-- POST /api/lvd of src/backend/routes/lvd.js (lines 180-240): rejects a
missing voltage or one outside [0, 5] with 400; otherwise appends one
lvd reading and answers 200 with the current threshold policy (the
stored row, or the defaults when the table is empty) in the body. -/
def lvdReceive (voltage : Option ℚ) (lvdStat : Bool) (solar : Option ℚ) (db : LvdDb) :
    LvdDb × IngestResp :=
  match voltage with
  | none => (db, err400)
  | some v =>
    if v < 0 ∨ 5 < v then (db, err400)
    else
      let s := db.settings.getD defaultSettings
      ({ db with
          lvd_readings := db.lvd_readings ++
            [{ battery_voltage := v, battery_percent := batteryPercent v,
               lvd_status := lvdStat, solar_voltage := solar }] },
       { status := 200, disconnect_volt := some s.disconnect_volt,
         reconnect_volt := some s.reconnect_volt,
         lvd_enabled := some s.lvd_enabled })

/-- C4 (amended): the LVD status ingestion endpoint POST /api/lvd is the
one that, after persisting the reading, answers 200 with the current
threshold policy (disconnect voltage, reconnect voltage, enabled flag) in
the body; the sensor readings receive endpoint does not echo the policy
(see the counterexample theorem). -/
theorem lvdReceive_echoes_policy :
    ∀ (v : ℚ) (lvdStat : Bool) (solar : Option ℚ) (db : LvdDb),
      0 ≤ v → v ≤ 5 →
      (lvdReceive (some v) lvdStat solar db).1.lvd_readings =
        db.lvd_readings ++
          [{ battery_voltage := v, battery_percent := batteryPercent v,
             lvd_status := lvdStat, solar_voltage := solar }] ∧
      (lvdReceive (some v) lvdStat solar db).1.settings = db.settings ∧
      (lvdReceive (some v) lvdStat solar db).2 =
        { status := 200,
          disconnect_volt := some (db.settings.getD defaultSettings).disconnect_volt,
          reconnect_volt := some (db.settings.getD defaultSettings).reconnect_volt,
          lvd_enabled := some (db.settings.getD defaultSettings).lvd_enabled } := by
  intro v lvdStat solar db hlo hhi
  have hin : ¬ (v < 0 ∨ 5 < v) := by
    push_neg
    exact ⟨hlo, hhi⟩
  refine ⟨?_, ?_, ?_⟩ <;> simp [lvdReceive, hin]

/-- Witness for the C4 amended theorem: a 3.7 V status report on the empty
store is persisted and answered with the default policy values. -/
theorem lvdReceive_echoes_policy_witness :
    (lvdReceive (some (37/10)) true none { settings := none, lvd_readings := [] }).2 =
      { status := 200, disconnect_volt := some (defaultSettings.disconnect_volt),
        reconnect_volt := some (defaultSettings.reconnect_volt),
        lvd_enabled := some (defaultSettings.lvd_enabled) } :=
  (lvdReceive_echoes_policy (37/10) true none { settings := none, lvd_readings := [] }
    (by norm_num) (by norm_num)).2.2

/-- GET /api/lvd/settings of src/backend/routes/lvd.js (lines 64-91): the
stored settings row, or the default policy when the table is empty. -/
def lvdGetSettings (s : Option LvdSettings) : LvdSettings :=
  s.getD defaultSettings

/-- C9 (amended): the policy fetch of the full backend always returns a
complete policy: the exact defaults disconnect 3.30, reconnect 3.60,
enabled true when no row was ever stored, the stored row otherwise, and
after any sequence of updates on an initially empty store the fetched
policy still has both voltages inside [2.5, 4.2]; the minimal Express
backend behaves differently (see the counterexample theorem). -/
theorem lvdGetSettings_total :
    lvdGetSettings none =
      { disconnect_volt := 33/10, reconnect_volt := 18/5, lvd_enabled := true } ∧
    (∀ p, lvdGetSettings (some p) = p) ∧
    (∀ us, rangeOk (lvdGetSettings (applySettings us none))) := by
  refine ⟨rfl, fun p => rfl, ?_⟩
  intro us
  have h := rangeOkOpt_applySettings us none trivial
  cases happ : applySettings us none with
  | none => simpa [lvdGetSettings, happ] using rangeOk_default
  | some p =>
    rw [happ] at h
    simpa [lvdGetSettings, happ] using h

/-- Threshold policy row of the minimal Express backend
(src/backend/index.js), whose column names differ. -/
structure LvdSettingsPg where
  disconnect_voltage : ℚ
  reconnect_voltage : ℚ
  lvd_enabled : Bool
  deriving DecidableEq, Repr

/-- GET /api/lvd of src/backend/index.js (lines 329-342): the settings
row when one exists, and an empty object, modelled as none, when the
table is empty; no defaults are substituted. -/
def getLvdPg (s : Option LvdSettingsPg) : Option LvdSettingsPg := s

/-- Bootstrap seeding of src/backend/index.js initDatabase (lines
101-106): when the lvd_settings table is empty a row with disconnect 3.30
and reconnect 3.50 is inserted. -/
def initLvdSettingsPg (s : Option LvdSettingsPg) : Option LvdSettingsPg :=
  match s with
  | none => some { disconnect_voltage := 33/10, reconnect_voltage := 7/2, lvd_enabled := true }
  | some p => some p

/-- C9 counterexample: the policy fetch of the minimal Express backend,
cited by the claim, returns an empty settings object when no row is
stored, and right after bootstrap, before any explicit update, it returns
reconnect 3.50, not the claimed default 3.60. -/
theorem getLvdPg_incomplete :
    getLvdPg none = none ∧
    (getLvdPg (initLvdSettingsPg none)).map LvdSettingsPg.reconnect_voltage = some (7/2) ∧
    ¬ ((7 : ℚ)/2 = 18/5) := by
  refine ⟨rfl, rfl, by norm_num⟩

/-- Index-aware filter mirroring the JavaScript call
readings.filter keeping the elements whose zero-based index is a
multiple of step; the first argument of the recursion is the index of the
head of the remaining list. -/
def filterIdx {α : Type} (step : Nat) : Nat → List α → List α
  | _, [] => []
  | i, x :: xs =>
    if i % step = 0 then x :: filterIdx step (i + 1) xs
    else filterIdx step (i + 1) xs

/-- Downsampling of GET /api/readings/chart in src/unnamed/part_002
(lines 620-626): when more than 200 rows are returned, keep the rows
whose index is a multiple of step, where step is the ceiling of
length / 200, written here as (length + 199) / 200 over natural number
division; the theorem about this definition proves that this quotient is
exactly the ceiling. -/
def chartSample {α : Type} (rows : List α) : List α :=
  if 200 < rows.length then filterIdx ((rows.length + 199) / 200) 0 rows
  else rows

/-- Spec-side selection, written from the spec words: the evenly spaced
subset made of the readings whose zero-based index in order is a multiple
of the stride. -/
def strideSelect {α : Type} (rows : List α) (stride : Nat) : List α :=
  (List.range rows.length).filterMap
    (fun i => if i % stride = 0 then rows.get? i else none)

lemma filterIdx_eq_strideFrom {α : Type} (step : Nat) :
    ∀ (l : List α) (j : Nat),
      filterIdx step j l =
        (List.range l.length).filterMap
          (fun i => if (j + i) % step = 0 then l.get? i else none) := by
  intro l
  induction l with
  | nil => intro j; simp [filterIdx]
  | cons x xs ih =>
    intro j
    rw [List.length_cons, List.range_succ_eq_map, List.filterMap_cons, List.filterMap_map]
    have hcomp :
        ((fun i => if (j + i) % step = 0 then (x :: xs).get? i else none) ∘ Nat.succ)
          = fun i => if ((j + 1) + i) % step = 0 then xs.get? i else none := by
      funext i
      have harith : j + (i + 1) = (j + 1) + i := by omega
      simp only [Function.comp, List.get?_cons_succ, harith]
    rw [hcomp, ← ih (j + 1)]
    by_cases hj : j % step = 0
    · simp [filterIdx, hj]
    · simp [filterIdx, hj]

/-- C8: when a chart query returns more than 200 rows, the service keeps
exactly the rows whose zero-based index in timestamp order is a multiple
of the stride, and that stride, (length + 199) / 200, is exactly the
ceiling of length / 200: it is the least k with length at most 200 k. -/
theorem chartSample_even_stride :
    ∀ (rows : List ℚ), 200 < rows.length →
      chartSample rows = strideSelect rows ((rows.length + 199) / 200) ∧
      rows.length ≤ 200 * ((rows.length + 199) / 200) ∧
      200 * ((rows.length + 199) / 200 - 1) < rows.length := by
  intro rows h
  refine ⟨?_, by omega, by omega⟩
  rw [chartSample, if_pos h, strideSelect, filterIdx_eq_strideFrom]
  simp [Nat.zero_add]

/-- List of 201 rationals used by the C8 witness. -/
def rows201 : List ℚ := List.replicate 201 (7/2)

/-- Witness for C8 on a concrete 201-row result, where the stride is 2. -/
theorem chartSample_even_stride_witness :
    chartSample rows201 = strideSelect rows201 ((rows201.length + 199) / 200) ∧
    rows201.length ≤ 200 * ((rows201.length + 199) / 200) ∧
    200 * ((rows201.length + 199) / 200 - 1) < rows201.length :=
  chartSample_even_stride rows201
    (by simp only [rows201, List.length_replicate]; omega)

end BeehiveMonitor
